import Mathlib

/-!
Verification development for the MONAI spleen-segmentation SageMaker notebook
(MONAI_BYOS_spleen_segmentation_3D_Task.ipynb).  The definitions below are a
shallow embedding of the notebook's cells: request payloads, the dataset
glob/zip/split, the training-job configuration with its metric regular
expressions, the download cell's guard, and a sequential model of the whole
notebook run over an environment supplying the results of the external SDK
calls.  Theorems about these definitions settle the spec claims.
-/

namespace NB

/-- JSON scalar values appearing in the notebook's request payloads. -/
inductive JVal where
  | str (s : String)
  | int (n : Int)
deriving DecidableEq

/-- A JSON object, as an association list of string keys to values,
in the order the notebook's dict literals write them. -/
abbrev Payload := List (String × JVal)

/-- Keys of a JSON object, in order. -/
def payloadKeys (p : Payload) : List String := p.map Prod.fst

/-- Cell 16 constant named prefix in the notebook source. -/
def prefix_str : String := "MONAI_Segmentation"

/-- Cell 28 constant prefix_key, the S3 key of the test data. -/
def prefix_key : String := prefix_str ++ "/test"

/-- Python range a b over integers, as the list a, a+1, ..., b-1. -/
def pyRange (a b : Int) : List Int := (List.range (b - a).toNat).map (fun i => a + Int.ofNat i)

/-- Cell 28 loop lower bound nslicestart. -/
def nslicestart : Int := 0

/-- Cell 28 loop upper bound nsliceend. -/
def nsliceend : Int := 10

/-- The single-slice request payload built inside the cell 28 inference loop:
a dict with keys bucket, key, file, nslice where nslice is the loop counter. -/
def payload (bucket key file : String) (counter : Int) : Payload :=
  [("bucket", JVal.str bucket), ("key", JVal.str key),
   ("file", JVal.str file), ("nslice", JVal.int counter)]

/-- Cell 34 constant slicestart. -/
def slicestart : Int := 70

/-- Cell 34 constant sliceend. -/
def sliceend : Int := 75

/-- The Python f-string joining two integers with a colon. -/
def rangeStr (a b : Int) : String := toString a ++ ":" ++ toString b

/-- Cell 34 value sliceselect, the range string formed from slicestart and sliceend. -/
def sliceselect : String := rangeStr slicestart sliceend

/-- Cell 34 payload_multi: same four keys, nslice is the range string. -/
def payload_multi (bucket key file : String) : Payload :=
  [("bucket", JVal.str bucket), ("key", JVal.str key),
   ("file", JVal.str file), ("nslice", JVal.str sliceselect)]

/-- Cell 37 payload_all: same four keys, nslice is the literal string all. -/
def payload_all (bucket key file : String) : Payload :=
  [("bucket", JVal.str bucket), ("key", JVal.str key),
   ("file", JVal.str file), ("nslice", JVal.str "all")]

/-- All payloads the notebook passes to predictor.predict: the ten loop
payloads of cell 28 followed by payload_multi of cell 34 and payload_all of
cell 37.  The bucket and test-file name come from the session and the data. -/
def allPredictPayloads (bucket file : String) : List Payload :=
  (pyRange nslicestart nsliceend).map (payload bucket prefix_key file) ++
    [payload_multi bucket prefix_key file, payload_all bucket prefix_key file]

/-- The three nslice forms the spec admits: an integer, a start-colon-end
range string, or the literal string all. -/
def isValidNSlice (v : JVal) : Prop :=
  (∃ n : Int, v = JVal.int n) ∨ (∃ a b : Int, v = JVal.str (rangeStr a b)) ∨
    v = JVal.str "all"

/-- The cell 28 loop generalised over its bounds: the list of responses
collected by appending predictor.predict of each loop payload in order. -/
def test_demo_preds {ρ : Type} (respond : Payload → ρ) (bucket key file : String)
    (a b : Int) : List ρ :=
  (pyRange a b).map (fun counter => respond (payload bucket key file counter))

/-- Cell 7 constant resource: the public bucket URL of the dataset archive. -/
def resource : String := "https://msd-for-monai.s3-us-west-2.amazonaws.com/Task09_Spleen.tar"

/-- Cell 7 constant md5: the expected checksum of the archive. -/
def md5 : String := "410d4a301da4e5b2f6f86ec3ddba524e"

/-- Cell 7 constant data_dir. -/
def data_dir : String := "Spleen3D"

/-- Directory globbed for training images in cell 11. -/
def imagesTr_dir : String := data_dir ++ "/datasets/Task09_Spleen/imagesTr"

/-- Directory globbed for training labels in cell 11. -/
def labelsTr_dir : String := data_dir ++ "/datasets/Task09_Spleen/labelsTr"

/-- Extracted dataset contents: the entry names found in the imagesTr and
labelsTr directories of the extracted archive. -/
structure Fs where
  imagesTr : List String
  labelsTr : List String
deriving DecidableEq

/-- True when the glob pattern star dot nii dot gz matches the entry name:
the name ends with the suffix and, as for any star pattern of glob, is not
hidden, that is, does not start with a dot. -/
def matchesNiiGz (n : String) : Bool :=
  (match n.toList with | [] => true | c :: _ => !(c == '.')) &&
    List.isSuffixOf (".nii.gz".toList) n.toList

/-- glob.glob of star dot nii dot gz inside dir: the matching entries joined
to the directory path. -/
def globNiiGz (entries : List String) (dir : String) : List String :=
  (entries.filter matchesNiiGz).map (fun n => dir ++ "/" ++ n)

/-- Cell 11 train_images: sorted glob of the imagesTr directory. -/
def train_images (fs : Fs) : List String :=
  List.insertionSort (· ≤ ·) (globNiiGz fs.imagesTr imagesTr_dir)

/-- Cell 11 train_labels: sorted glob of the labelsTr directory. -/
def train_labels (fs : Fs) : List String :=
  List.insertionSort (· ≤ ·) (globNiiGz fs.labelsTr labelsTr_dir)

/-- A file-path dictionary, an association list of string keys to paths. -/
abbrev PathDict := List (String × String)

/-- Keys of a path dictionary, in order. -/
def dictKeys (d : PathDict) : List String := d.map Prod.fst

/-- Cell 11 data_dicts: one dict with keys image and label per zipped pair of
the sorted image and label path lists. -/
def data_dicts (imgs lbls : List String) : List PathDict :=
  (imgs.zip lbls).map (fun il => [("image", il.1), ("label", il.2)])

/-- Cell 11 train_files, the Python slice dropping the last element. -/
def train_files (dd : List PathDict) : List PathDict := dd.take (dd.length - 1)

/-- Cell 11 test_demo_files, the Python slice keeping only the last element. -/
def test_demo_files (dd : List PathDict) : List PathDict := dd.drop (dd.length - 1)

/-- Model of the external library call download_and_extract of monai.apps with
arguments url, filepath, output_dir, hash_val as cell 7 uses it: it fetches
the archive at url and extracts it only after the archive's md5 digest equals
hash_val; on a digest mismatch it raises instead of extracting.  Fetching,
hashing and extraction themselves stay abstract parameters. -/
def download_and_extract {Arc : Type} (fetch : String → Arc) (digest : Arc → String)
    (extract : Arc → Fs) (url hash_val : String) : Except String Fs :=
  let a := fetch url
  if digest a = hash_val then Except.ok (extract a) else Except.error "md5 check failed"

/-- Step kinds performed by the notebook, used to trace a run. -/
inductive Op where
  | download
  | transformCompose
  | split
  | plot
  | mkdirs
  | copyFiles
  | uploadTrain
  | uploadTest
  | fit
  | deploy
  | predictSlice (n : Int)
  | predictRange
  | predictAll
deriving DecidableEq

/-- Cell 7, the guarded download cell.  When the data_dir directory already
exists the cell does nothing; otherwise it runs the download, dl standing for
the outcome of the download_and_extract call, and records it in the trace. -/
def downloadStep (dirExists : Bool) (dl : Except String Fs) (fs : Fs) :
    Except String (Fs × List Op) :=
  if dirExists then Except.ok (fs, [])
  else dl.bind (fun fs2 => Except.ok (fs2, [Op.download]))

/-- A metric definition of the cell 23 metrics list: a display name and the
regular expression extracting the metric value from the training log. -/
structure MetricDef where
  Name : String
  Regex : String
deriving DecidableEq

/-- Hyperparameter values of the cell 23 estimator: Python integer or decimal
literals; decimal m e denotes m times ten to the minus e, so the Python
literal 0.001 is decimal 1 3. -/
inductive HPVal where
  | int (n : Int)
  | decimal (mantissa : Int) (exp10 : Nat)
deriving DecidableEq

/-- Cell 23 metrics list, with the regular expressions written verbatim. -/
def metrics : List MetricDef :=
  [⟨"train:average epoch loss", "average loss: ([0-9\\.]*)"⟩,
   ⟨"train:current mean dice", "current mean dice: ([0-9\\.]*)"⟩,
   ⟨"train:best mean dice", "best mean dice: ([0-9\\.]*)"⟩]

/-- The keyword arguments of the PyTorch estimator constructed in cell 23. -/
structure EstimatorConfig where
  source_dir : String
  entry_point : String
  framework_version : String
  py_version : String
  instance_count : Nat
  instance_type : String
  hyperparameters : List (String × HPVal)
  metric_definitions : List MetricDef
deriving DecidableEq

/-- Cell 23 estimator. -/
def estimator : EstimatorConfig :=
  ⟨"code", "train.py", "1.6.0", "py3", 1, "ml.g4dn.2xlarge",
   [("seed", HPVal.int 123), ("lr", HPVal.decimal 1 3), ("epochs", HPVal.int 20)],
   metrics⟩

/-- Characters matched by the character class of the metric regular
expressions: a digit or a dot. -/
def isNumChar (c : Char) : Bool := ('0' ≤ c && c ≤ '9') || c == '.'

/-- The text of the single capturing group shared by the three metric regular
expressions: a starred class of digits and dot. -/
def classStarPat : String := "([0-9\\.]*)"

/-- Splits a metric regular expression into its literal part, defined when
the regex is a literal followed by the capturing group classStarPat. -/
def litOfRegex (r : String) : Option String :=
  if List.isSuffixOf classStarPat.toList r.toList then
    some (String.mk (r.toList.take (r.toList.length - classStarPat.toList.length)))
  else none

/-- Semantics of searching a regex of shape literal-then-starred-class in a
line, as re.search does: at the first position where the literal matches, the
group captures the longest run of class characters that follows. -/
def searchCapture (lit : List Char) : List Char → Option (List Char)
  | [] => if lit = [] then some [] else none
  | c :: rest =>
    if lit.isPrefixOf (c :: rest) then
      some (((c :: rest).drop lit.length).takeWhile isNumChar)
    else searchCapture lit rest

/-- A prediction response: either the pixel array of one slice or the
object-storage location string where a multi-slice result was stored. -/
inductive EndpointResponse where
  | pixelArray (pixels : List (List Nat))
  | s3Location (uri : String)
deriving DecidableEq

/-- Modelled from the spec: the endpoint handler of inference.py, which cell
26 names as the entry point of estimator.deploy but which is not present
under src.  Per the spec, an integer nslice returns the pixel array for that
single slice, while a start-colon-end range string or the literal all returns
the object-storage location string where the inference result is saved.  The
per-slice inference and the stored location stay abstract parameters. -/
def endpointRespond (slicePred : Int → List (List Nat)) (s3loc_of : String → String)
    (v : JVal) : EndpointResponse :=
  match v with
  | JVal.int n => EndpointResponse.pixelArray (slicePred n)
  | JVal.str s => EndpointResponse.s3Location (s3loc_of s)

/-- The last path component, as the cell 28 Python split on slash indexed at
minus one: the characters after the last slash, or the whole path. -/
def fileNameOf (path : String) : String :=
  String.mk ((path.toList.reverse.takeWhile (fun c => !(c == '/'))).reverse)

/-- Sequencing of fallible calls over a list, collecting results in order and
stopping at the first error, as the cell 28 append loop does. -/
def mapExcept {α β : Type} (f : α → Except String β) : List α → Except String (List β)
  | [] => Except.ok []
  | a :: as =>
    (f a).bind (fun b => (mapExcept f as).bind (fun bs => Except.ok (b :: bs)))

/-- Results of the external SDK and library calls the notebook makes, one
field per call site: the download cell, the copy loops, the two uploads, the
fit, the deploy, and the endpoint answering every predict call. -/
structure Env where
  spleenDirExists : Bool
  fs0 : Fs
  download_result : Except String Fs
  bucket : String
  copy_result : Except String Unit
  upload_train_result : Except String String
  upload_test_result : Except String String
  fit_result : Except String Unit
  deploy_result : Except String Unit
  predict : Payload → Except String EndpointResponse

/-- The notebook executed top to bottom: the cell 7 download guard, the cell
9 transform composition, the cell 11 dataset split, the cell 14 visualisation
(which indexes the test files and fails on an empty dataset), the cell 16 to
18 directory creation and copy loops, the cell 20 and 21 uploads, the cell 23
fit, the cell 26 deploy, the cell 28 predict loop, the cell 32 plot, and the
cell 34 and 37 predict calls.  No cell catches an exception, so every step is
sequenced with bind.  Returns the collected responses and the trace of
performed steps. -/
def runNotebook (env : Env) : Except String (List EndpointResponse × List Op) :=
  (downloadStep env.spleenDirExists env.download_result env.fs0).bind (fun r1 =>
  (match test_demo_files (data_dicts (train_images r1.1) (train_labels r1.1)) with
   | [] => Except.error "IndexError"
   | d :: _ => Except.ok d).bind (fun d0 =>
  env.copy_result.bind (fun _ =>
  env.upload_train_result.bind (fun _ =>
  env.upload_test_result.bind (fun _ =>
  env.fit_result.bind (fun _ =>
  env.deploy_result.bind (fun _ =>
  (mapExcept (fun counter =>
      env.predict (payload env.bucket prefix_key
        (fileNameOf ((List.lookup "image" d0).getD "")) counter))
    (pyRange nslicestart nsliceend)).bind (fun preds =>
  (env.predict (payload_multi env.bucket prefix_key
      (fileNameOf ((List.lookup "image" d0).getD "")))).bind (fun rm =>
  (env.predict (payload_all env.bucket prefix_key
      (fileNameOf ((List.lookup "image" d0).getD "")))).bind (fun ra =>
  Except.ok (preds ++ [rm, ra],
    r1.2 ++ [Op.transformCompose, Op.split, Op.plot, Op.mkdirs, Op.copyFiles,
      Op.uploadTrain, Op.uploadTest, Op.fit, Op.deploy] ++
      (pyRange nslicestart nsliceend).map Op.predictSlice ++
      [Op.plot, Op.predictRange, Op.predictAll])))))))))))

/-- The step trace of a successful run that performed the download. -/
def fullTrace : List Op :=
  [Op.download, Op.transformCompose, Op.split, Op.plot, Op.mkdirs, Op.copyFiles,
   Op.uploadTrain, Op.uploadTest, Op.fit, Op.deploy] ++
    (pyRange nslicestart nsliceend).map Op.predictSlice ++
    [Op.plot, Op.predictRange, Op.predictAll]

/-- Indices of the trace entries satisfying p. -/
def opPositions (p : Op → Bool) (tr : List Op) : List Nat :=
  (tr.enum.filter (fun x => p x.2)).map Prod.fst

/-- True when every entry satisfying p occurs strictly before every entry
satisfying q. -/
def allBefore (p q : Op → Bool) (tr : List Op) : Bool :=
  (opPositions p tr).all (fun i => (opPositions q tr).all (fun j => i < j))

/-- Recognisers for the step kinds of the claimed ordering. -/
def isDownload : Op → Bool
  | Op.download => true
  | _ => false

def isTransform : Op → Bool
  | Op.transformCompose => true
  | _ => false

def isCopy : Op → Bool
  | Op.copyFiles => true
  | _ => false

def isUpload : Op → Bool
  | Op.uploadTrain => true
  | Op.uploadTest => true
  | _ => false

def isUploadTrain : Op → Bool
  | Op.uploadTrain => true
  | _ => false

def isFit : Op → Bool
  | Op.fit => true
  | _ => false

def isDeploy : Op → Bool
  | Op.deploy => true
  | _ => false

def isPredict : Op → Bool
  | Op.predictSlice _ => true
  | Op.predictRange => true
  | Op.predictAll => true
  | _ => false

def isPlot : Op → Bool
  | Op.plot => true
  | _ => false

/-- A concrete environment in which every external call succeeds and the
dataset holds one image and one label. -/
def envC : Env :=
  ⟨false, Fs.mk [] [], Except.ok (Fs.mk ["spleen_1.nii.gz"] ["spleen_1.nii.gz"]),
   "session-bucket", Except.ok (), Except.ok "s3://train", Except.ok "s3://test",
   Except.ok (), Except.ok (),
   fun _ => Except.ok (EndpointResponse.s3Location "s3://out")⟩

/-- The step trace of the concrete successful run of envC. -/
def traceC : List Op :=
  match runNotebook envC with
  | Except.ok r => r.2
  | Except.error _ => []

/-- The concrete environment envC except that the fit call fails. -/
def envBad : Env :=
  ⟨false, Fs.mk [] [], Except.ok (Fs.mk ["spleen_1.nii.gz"] ["spleen_1.nii.gz"]),
   "session-bucket", Except.ok (), Except.ok "s3://train", Except.ok "s3://test",
   Except.error "boom", Except.ok (),
   fun _ => Except.ok (EndpointResponse.s3Location "s3://out")⟩

end NB

namespace NB

/-- C1: every payload the notebook sends through predictor.predict is a JSON
object with exactly the four keys bucket, key, file, nslice, and its nslice
value is an integer, a start-colon-end range string, or the literal all. -/
theorem predict_payload_shape (bucket file : String) (p : Payload)
    (hp : p ∈ allPredictPayloads bucket file) :
    payloadKeys p = ["bucket", "key", "file", "nslice"] ∧
      ∃ v, List.lookup "nslice" p = some v ∧ isValidNSlice v := by
  simp only [allPredictPayloads, List.mem_append, List.mem_map, List.mem_cons,
    List.mem_singleton, List.not_mem_nil, or_false] at hp
  rcases hp with ⟨c, _, rfl⟩ | rfl | rfl
  · refine ⟨rfl, ⟨JVal.int c, ?_, Or.inl ⟨c, rfl⟩⟩⟩
    simp [payload, List.lookup]
  · refine ⟨rfl, ⟨JVal.str sliceselect, ?_, Or.inr (Or.inl ⟨slicestart, sliceend, rfl⟩)⟩⟩
    simp [payload_multi, List.lookup]
  · refine ⟨rfl, ⟨JVal.str "all", ?_, Or.inr (Or.inr rfl)⟩⟩
    simp [payload_all, List.lookup]

/-- Witness for predict_payload_shape at a concrete payload. -/
theorem predict_payload_shape_witness :
    payloadKeys (payload_all "b" prefix_key "f") = ["bucket", "key", "file", "nslice"] ∧
      ∃ v, List.lookup "nslice" (payload_all "b" prefix_key "f") = some v ∧ isValidNSlice v :=
  predict_payload_shape "b" "f" (payload_all "b" prefix_key "f") (by decide)

/-- C10: for bounds a at most b, the single-slice loop issues exactly b minus a
requests, the i-th collected response answers the payload whose nslice is
a plus i, and the nslice values are sent in strictly increasing order. -/
theorem inference_loop_spec {ρ : Type} (respond : Payload → ρ) (bucket key file : String)
    (a b : Int) (hab : a ≤ b) :
    ((test_demo_preds respond bucket key file a b).length : Int) = b - a ∧
      (∀ i (hi : i < (test_demo_preds respond bucket key file a b).length),
        (test_demo_preds respond bucket key file a b).get ⟨i, hi⟩ =
          respond (payload bucket key file (a + i))) ∧
      List.Pairwise (fun m n => m < n) (pyRange a b) := by
  refine ⟨?_, ?_, ?_⟩
  · simp only [test_demo_preds, pyRange, List.length_map, List.length_range]
    omega
  · intro i hi
    simp only [test_demo_preds, pyRange, List.get_eq_getElem, List.getElem_map,
      List.getElem_range, Int.ofNat_eq_natCast]
  · simp only [pyRange]
    rw [List.pairwise_map]
    exact List.Pairwise.imp
      (by intro i j h; simp only [Int.ofNat_eq_natCast]; omega)
      (List.pairwise_lt_range _)

/-- Witness for inference_loop_spec at the notebook's concrete bounds 0 and 10. -/
theorem inference_loop_spec_witness :
    ((test_demo_preds (fun _ => (0 : Nat)) "b" "k" "f" 0 10).length : Int) = 10 - 0 :=
  (inference_loop_spec (fun _ => (0 : Nat)) "b" "k" "f" 0 10 (by decide)).1

/-- Helper: dropping all but one element of a nonempty list leaves its last. -/
theorem drop_len_sub_one {α : Type} (l : List α) (h : l ≠ []) :
    l.drop (l.length - 1) = [l.getLast h] := by
  induction l with
  | nil => exact absurd rfl h
  | cons a t ih =>
    cases t with
    | nil => rfl
    | cons b t2 =>
      have h2 : (b :: t2) ≠ [] := by simp
      have ih2 := ih h2
      simp only [List.length_cons, Nat.add_sub_cancel] at ih2 ⊢
      rw [List.getLast_cons h2, ← ih2]
      rfl

/-- C6: every element of data_dicts, and hence of train_files and of
test_demo_files, is a dictionary with exactly the keys image and label. -/
theorem data_dict_keys (imgs lbls : List String) (d : PathDict)
    (hd : d ∈ data_dicts imgs lbls ∨ d ∈ train_files (data_dicts imgs lbls) ∨
      d ∈ test_demo_files (data_dicts imgs lbls)) :
    dictKeys d = ["image", "label"] := by
  have hmem : d ∈ data_dicts imgs lbls := by
    rcases hd with h | h | h
    · exact h
    · exact List.mem_of_mem_take h
    · exact List.mem_of_mem_drop h
  simp only [data_dicts, List.mem_map] at hmem
  rcases hmem with ⟨il, _, rfl⟩
  rfl

/-- Witness for data_dict_keys at a concrete one-pair dataset. -/
theorem data_dict_keys_witness :
    dictKeys [("image", "a"), ("label", "b")] = ["image", "label"] :=
  data_dict_keys ["a"] ["b"] [("image", "a"), ("label", "b")] (Or.inl (by decide))

/-- C9: for nonempty data_dicts, train_files and test_demo_files concatenate
back to data_dicts, test_demo_files is exactly the last element, and the
length of data_dicts is the minimum of the two zipped list lengths. -/
theorem data_split_spec (imgs lbls : List String) (h : data_dicts imgs lbls ≠ []) :
    train_files (data_dicts imgs lbls) ++ test_demo_files (data_dicts imgs lbls) =
        data_dicts imgs lbls ∧
      test_demo_files (data_dicts imgs lbls) = [(data_dicts imgs lbls).getLast h] ∧
      (data_dicts imgs lbls).length = min imgs.length lbls.length := by
  refine ⟨List.take_append_drop _ _, drop_len_sub_one _ h, ?_⟩
  simp [data_dicts, List.length_zip]

/-- Witness for data_split_spec at a concrete one-pair dataset. -/
theorem data_split_spec_witness :
    train_files (data_dicts ["a"] ["b"]) ++ test_demo_files (data_dicts ["a"] ["b"]) =
      data_dicts ["a"] ["b"] :=
  (data_split_spec ["a"] ["b"] (by decide)).1

/-- C7: the notebook's inputs are exactly the non-hidden entries matching the
glob pattern under imagesTr and labelsTr, sorted; the archive URL and the md5
constant are the fixed literals; and the modelled download_and_extract call
extracts only after the digest matches, raising on a mismatch. -/
theorem dataset_inputs_spec (fs : Fs) (p : String) :
    (p ∈ train_images fs ↔
        ∃ n, n ∈ fs.imagesTr ∧ matchesNiiGz n = true ∧ p = imagesTr_dir ++ "/" ++ n) ∧
      (p ∈ train_labels fs ↔
        ∃ n, n ∈ fs.labelsTr ∧ matchesNiiGz n = true ∧ p = labelsTr_dir ++ "/" ++ n) ∧
      List.Sorted (· ≤ ·) (train_images fs) ∧
      List.Sorted (· ≤ ·) (train_labels fs) ∧
      resource = "https://msd-for-monai.s3-us-west-2.amazonaws.com/Task09_Spleen.tar" ∧
      md5 = "410d4a301da4e5b2f6f86ec3ddba524e" ∧
      (∀ {Arc : Type} (fetch : String → Arc) (digest : Arc → String) (extract : Arc → Fs),
        digest (fetch resource) ≠ md5 →
          download_and_extract fetch digest extract resource md5 =
            Except.error "md5 check failed") ∧
      (∀ {Arc : Type} (fetch : String → Arc) (digest : Arc → String) (extract : Arc → Fs)
          (out : Fs),
        download_and_extract fetch digest extract resource md5 = Except.ok out →
          digest (fetch resource) = md5 ∧ out = extract (fetch resource)) := by
  refine ⟨?_, ?_, ?_, ?_, rfl, rfl, ?_, ?_⟩
  · rw [train_images, List.mem_insertionSort]
    simp only [globNiiGz, List.mem_map, List.mem_filter]
    constructor
    · rintro ⟨n, ⟨hmem, hm⟩, rfl⟩
      exact ⟨n, hmem, hm, rfl⟩
    · rintro ⟨n, hmem, hm, rfl⟩
      exact ⟨n, ⟨hmem, hm⟩, rfl⟩
  · rw [train_labels, List.mem_insertionSort]
    simp only [globNiiGz, List.mem_map, List.mem_filter]
    constructor
    · rintro ⟨n, ⟨hmem, hm⟩, rfl⟩
      exact ⟨n, hmem, hm, rfl⟩
    · rintro ⟨n, hmem, hm, rfl⟩
      exact ⟨n, ⟨hmem, hm⟩, rfl⟩
  · exact List.sorted_insertionSort _ _
  · exact List.sorted_insertionSort _ _
  · intro Arc fetch digest extract hne
    simp only [download_and_extract, if_neg hne]
  · intro Arc fetch digest extract out hok
    by_cases hc : digest (fetch resource) = md5
    · refine ⟨hc, ?_⟩
      simp only [download_and_extract, if_pos hc, Except.ok.injEq] at hok
      exact hok.symm
    · simp only [download_and_extract, if_neg hc] at hok
      exact absurd hok (by simp)

/-- Witness for dataset_inputs_spec: a digest mismatch raises. -/
theorem dataset_inputs_spec_witness :
    download_and_extract (fun _ => ()) (fun _ => "deadbeef") (fun _ => Fs.mk [] [])
      resource md5 = Except.error "md5 check failed" :=
  (dataset_inputs_spec (Fs.mk [] []) "p").2.2.2.2.2.2.1 (fun _ => ()) (fun _ => "deadbeef")
    (fun _ => Fs.mk [] []) (by decide)

/-- C8: the download cell downloads only when the data_dir directory is
missing; when it exists the cell performs no download or extraction and the
filesystem is returned unchanged, whatever the download would have done. -/
theorem download_guard (dl : Except String Fs) (fs : Fs) (e : String) (fs2 : Fs) :
    downloadStep true dl fs = Except.ok (fs, []) ∧
      downloadStep false (Except.ok fs2) fs = Except.ok (fs2, [Op.download]) ∧
      downloadStep false (Except.error e) fs = Except.error e :=
  ⟨rfl, rfl, rfl⟩

/-- Helper: takeWhile of a run of class characters followed by a list whose
head is outside the class returns exactly the run. -/
theorem takeWhile_run_append (p : Char → Bool) (v w : List Char)
    (hv : ∀ c ∈ v, p c = true) (hw : ∀ c, w.head? = some c → p c = false) :
    (v ++ w).takeWhile p = v := by
  induction v with
  | nil =>
    cases w with
    | nil => rfl
    | cons c w2 =>
      have hc := hw c rfl
      simp [List.takeWhile_cons, hc]
  | cons a v2 ih =>
    have ha := hv a (by simp)
    have ih2 := ih (fun c hc => hv c (by simp [hc]))
    simp [List.takeWhile_cons, ha, ih2]

/-- Helper: a list is a Boolean prefix of itself followed by anything. -/
theorem isPrefixOf_append_self (l s : List Char) : l.isPrefixOf (l ++ s) = true := by
  induction l with
  | nil => simp [List.isPrefixOf]
  | cons a t ih => simp [List.isPrefixOf, ih]

/-- Helper: searching a literal in a line that starts with it captures the
class run right after the literal. -/
theorem searchCapture_append (lit s : List Char) :
    searchCapture lit (lit ++ s) = some (s.takeWhile isNumChar) := by
  cases lit with
  | nil =>
    cases s with
    | nil => rfl
    | cons c r => simp [searchCapture, List.isPrefixOf]
  | cons d lt =>
    have hpre : (d :: lt).isPrefixOf (d :: (lt ++ s)) = true := by
      have h := isPrefixOf_append_self (d :: lt) s
      rwa [List.cons_append] at h
    simp only [List.cons_append, searchCapture, List.append_eq, hpre, if_pos,
      List.length_cons, List.drop_succ_cons, Option.some.injEq]
    rw [List.drop_left]

/-- C5: the training job is submitted with entry point train.py, framework
version 1.6.0, one instance, hyperparameters exactly seed 123, lr 0.001 and
epochs 20, and exactly three metric definitions whose regular expressions are
the three literal log prefixes followed by the numeric capturing group;
searching such a regex in a log line captures precisely the numeric value
following the literal prefix. -/
theorem training_job_config :
    estimator.entry_point = "train.py" ∧
      estimator.framework_version = "1.6.0" ∧
      estimator.instance_count = 1 ∧
      estimator.hyperparameters =
        [("seed", HPVal.int 123), ("lr", HPVal.decimal 1 3), ("epochs", HPVal.int 20)] ∧
      estimator.metric_definitions = metrics ∧
      metrics.map (fun m => litOfRegex m.Regex) =
        [some "average loss: ", some "current mean dice: ", some "best mean dice: "] ∧
      (∀ lit v w : List Char, (∀ c ∈ v, isNumChar c = true) →
        (∀ c, w.head? = some c → isNumChar c = false) →
        searchCapture lit (lit ++ (v ++ w)) = some v) := by
  refine ⟨rfl, rfl, rfl, rfl, rfl, by decide, ?_⟩
  intro lit v w hv hw
  rw [searchCapture_append, takeWhile_run_append isNumChar v w hv hw]

/-- Witness for training_job_config: the first metric regex applied to a log
line carrying the value 0.6423 captures exactly that value. -/
theorem training_job_config_witness :
    searchCapture ("average loss: ".toList)
        ("average loss: ".toList ++ ("0.6423".toList ++ " end".toList)) =
      some ("0.6423".toList) :=
  training_job_config.2.2.2.2.2.2 ("average loss: ".toList) ("0.6423".toList)
    (" end".toList) (by decide) (by decide)

/-- C2: for every prediction request the notebook sends, an integer nslice
yields the pixel array for that slice, a range-string or all nslice yields an
object-storage location string, and no other response form occurs. -/
theorem endpoint_response_forms (slicePred : Int → List (List Nat))
    (s3loc_of : String → String) (bucket file : String) (p : Payload) (v : JVal)
    (_hp : p ∈ allPredictPayloads bucket file) (_hv : List.lookup "nslice" p = some v) :
    (∀ n : Int, v = JVal.int n →
        endpointRespond slicePred s3loc_of v = EndpointResponse.pixelArray (slicePred n)) ∧
      (∀ a b : Int, v = JVal.str (rangeStr a b) →
        ∃ loc, endpointRespond slicePred s3loc_of v = EndpointResponse.s3Location loc) ∧
      (v = JVal.str "all" →
        ∃ loc, endpointRespond slicePred s3loc_of v = EndpointResponse.s3Location loc) ∧
      ((∃ pix, endpointRespond slicePred s3loc_of v = EndpointResponse.pixelArray pix) ∨
        (∃ loc, endpointRespond slicePred s3loc_of v = EndpointResponse.s3Location loc)) := by
  refine ⟨?_, ?_, ?_, ?_⟩
  · rintro n rfl
    rfl
  · rintro a b rfl
    exact ⟨_, rfl⟩
  · rintro rfl
    exact ⟨_, rfl⟩
  · cases v with
    | int n => exact Or.inl ⟨_, rfl⟩
    | str s => exact Or.inr ⟨_, rfl⟩

/-- Witness for endpoint_response_forms at the concrete all-slices payload. -/
theorem endpoint_response_forms_witness :
    ∃ loc, endpointRespond (fun _ => []) (fun s => "s3://out/" ++ s) (JVal.str "all") =
      EndpointResponse.s3Location loc :=
  (endpoint_response_forms (fun _ => []) (fun s => "s3://out/" ++ s) "b" "f"
      (payload_all "b" prefix_key "f") (JVal.str "all") (by decide) (by decide)).2.2.1 rfl

/-- Helper: a successful bind splits into a successful scrutinee and call. -/
theorem except_bind_ok {α β : Type} (x : Except String α) (f : α → Except String β)
    (b : β) (h : x.bind f = Except.ok b) : ∃ a, x = Except.ok a ∧ f a = Except.ok b := by
  cases x with
  | error e => exact absurd h (by simp [Except.bind])
  | ok a => exact ⟨a, rfl, h⟩

/-- Helper: a failing bind fails in the scrutinee or after it succeeded. -/
theorem except_bind_error {α β : Type} (x : Except String α) (f : α → Except String β)
    (e : String) (h : x.bind f = Except.error e) :
    x = Except.error e ∨ ∃ a, x = Except.ok a ∧ f a = Except.error e := by
  cases x with
  | error e2 =>
    simp only [Except.bind] at h
    injection h with h2
    exact Or.inl (by rw [h2])
  | ok a => exact Or.inr ⟨a, rfl, h⟩

/-- Helper: when the sequenced loop succeeds, every call in it succeeded. -/
theorem mapExcept_ok_forall {α β : Type} (f : α → Except String β) :
    ∀ (l : List α) (bs : List β), mapExcept f l = Except.ok bs →
      ∀ a ∈ l, ∃ b, f a = Except.ok b := by
  intro l
  induction l with
  | nil =>
    intro bs _ a ha
    exact absurd ha (List.not_mem_nil a)
  | cons x xs ih =>
    intro bs h a ha
    rcases except_bind_ok _ _ _ h with ⟨b, hb, h2⟩
    rcases except_bind_ok _ _ _ h2 with ⟨bs2, hbs2, _⟩
    rcases List.mem_cons.mp ha with rfl | ha2
    · exact ⟨b, hb⟩
    · exact ih bs2 hbs2 a ha2

/-- Helper: when the sequenced loop fails, some call in it failed with the
same error. -/
theorem mapExcept_error_exists {α β : Type} (f : α → Except String β) :
    ∀ (l : List α) (e : String), mapExcept f l = Except.error e →
      ∃ a, a ∈ l ∧ f a = Except.error e := by
  intro l
  induction l with
  | nil =>
    intro e h
    exact absurd h (by simp [mapExcept])
  | cons x xs ih =>
    intro e h
    rcases except_bind_error _ _ _ h with hx | ⟨b, _, h2⟩
    · exact ⟨x, by simp, hx⟩
    · rcases except_bind_error _ _ _ h2 with hxs | ⟨bs, _, h3⟩
      · rcases ih e hxs with ⟨a, ha, hfa⟩
        exact ⟨a, by simp [ha], hfa⟩
      · exact absurd h3 (by simp)

/-- Helper: a successful download step implies the download call succeeded
whenever the guard actually ran it. -/
theorem downloadStep_ok_inv (b : Bool) (dl : Except String Fs) (fs : Fs)
    (r : Fs × List Op) (h : downloadStep b dl fs = Except.ok r) :
    b = false → ∃ fs2, dl = Except.ok fs2 := by
  intro hb
  subst hb
  simp only [downloadStep, Bool.false_eq_true, if_false] at h
  rcases except_bind_ok _ _ _ h with ⟨fs2, hfs2, _⟩
  exact ⟨fs2, hfs2⟩

/-- Helper: a failing download step means the download call itself failed. -/
theorem downloadStep_error_inv (b : Bool) (dl : Except String Fs) (fs : Fs)
    (e : String) (h : downloadStep b dl fs = Except.error e) : dl = Except.error e := by
  cases b with
  | true => exact absurd h (by simp [downloadStep])
  | false =>
    simp only [downloadStep, Bool.false_eq_true, if_false] at h
    rcases except_bind_error _ _ _ h with hx | ⟨a, _, h2⟩
    · exact hx
    · exact absurd h2 (by simp)

/-- Helper: a successful download step that ran the download traced it. -/
theorem downloadStep_trace (dl : Except String Fs) (fs : Fs)
    (r : Fs × List Op) (h : downloadStep false dl fs = Except.ok r) :
    r.2 = [Op.download] := by
  simp only [downloadStep, Bool.false_eq_true, if_false] at h
  rcases except_bind_ok _ _ _ h with ⟨fs2, _, h2⟩
  cases h2
  rfl

/-- C3: the notebook catches nothing: a run returns normally only when every
underlying SDK call it reached succeeded, and a failing run surfaces
verbatim the error of one of the underlying calls (or the notebook's own
uncaught indexing error on an empty dataset); no failure is converted into a
default value or a normal return. -/
theorem notebook_failures_propagate (env : Env) :
    (∀ out, runNotebook env = Except.ok out →
      (env.spleenDirExists = false → ∃ fs2, env.download_result = Except.ok fs2) ∧
        env.copy_result = Except.ok () ∧
        (∃ s, env.upload_train_result = Except.ok s) ∧
        (∃ s, env.upload_test_result = Except.ok s) ∧
        env.fit_result = Except.ok () ∧
        env.deploy_result = Except.ok () ∧
        (∃ file, ∀ p ∈ allPredictPayloads env.bucket file,
          ∃ r, env.predict p = Except.ok r)) ∧
      (∀ e, runNotebook env = Except.error e →
        env.download_result = Except.error e ∨
          env.copy_result = Except.error e ∨
          env.upload_train_result = Except.error e ∨
          env.upload_test_result = Except.error e ∨
          env.fit_result = Except.error e ∨
          env.deploy_result = Except.error e ∨
          (∃ p, env.predict p = Except.error e) ∨
          e = "IndexError") := by
  constructor
  · intro out hok
    unfold runNotebook at hok
    rcases except_bind_ok _ _ _ hok with ⟨r1, hr1, hok⟩
    rcases except_bind_ok _ _ _ hok with ⟨d0, _, hok⟩
    rcases except_bind_ok _ _ _ hok with ⟨uc, hcopy, hok⟩
    rcases except_bind_ok _ _ _ hok with ⟨s1, hup1, hok⟩
    rcases except_bind_ok _ _ _ hok with ⟨s2, hup2, hok⟩
    rcases except_bind_ok _ _ _ hok with ⟨uf, hfit, hok⟩
    rcases except_bind_ok _ _ _ hok with ⟨ud, hdep, hok⟩
    rcases except_bind_ok _ _ _ hok with ⟨preds, hpreds, hok⟩
    rcases except_bind_ok _ _ _ hok with ⟨rm, hrm, hok⟩
    rcases except_bind_ok _ _ _ hok with ⟨ra, hra, _⟩
    refine ⟨downloadStep_ok_inv _ _ _ _ hr1, ?_, ⟨s1, hup1⟩, ⟨s2, hup2⟩, ?_, ?_, ?_⟩
    · cases uc
      exact hcopy
    · cases uf
      exact hfit
    · cases ud
      exact hdep
    · refine ⟨fileNameOf ((List.lookup "image" d0).getD ""), ?_⟩
      intro p hp
      simp only [allPredictPayloads, List.mem_append, List.mem_map, List.mem_cons,
        List.mem_singleton, List.not_mem_nil, or_false] at hp
      rcases hp with ⟨c, hc, rfl⟩ | rfl | rfl
      · exact mapExcept_ok_forall _ _ _ hpreds c hc
      · exact ⟨rm, hrm⟩
      · exact ⟨ra, hra⟩
  · intro e herr
    unfold runNotebook at herr
    rcases except_bind_error _ _ _ herr with h1 | ⟨r1, _, herr⟩
    · exact Or.inl (downloadStep_error_inv _ _ _ _ h1)
    rcases except_bind_error _ _ _ herr with h2 | ⟨d0, _, herr⟩
    · right; right; right; right; right; right; right
      cases hml : test_demo_files (data_dicts (train_images r1.1) (train_labels r1.1)) with
      | nil =>
        rw [hml] at h2
        injection h2 with h3
        exact h3.symm
      | cons d rest =>
        rw [hml] at h2
        exact absurd h2 (by simp)
    rcases except_bind_error _ _ _ herr with h3 | ⟨uc, _, herr⟩
    · exact Or.inr (Or.inl h3)
    rcases except_bind_error _ _ _ herr with h4 | ⟨s1, _, herr⟩
    · exact Or.inr (Or.inr (Or.inl h4))
    rcases except_bind_error _ _ _ herr with h5 | ⟨s2, _, herr⟩
    · exact Or.inr (Or.inr (Or.inr (Or.inl h5)))
    rcases except_bind_error _ _ _ herr with h6 | ⟨uf, _, herr⟩
    · exact Or.inr (Or.inr (Or.inr (Or.inr (Or.inl h6))))
    rcases except_bind_error _ _ _ herr with h7 | ⟨ud, _, herr⟩
    · exact Or.inr (Or.inr (Or.inr (Or.inr (Or.inr (Or.inl h7)))))
    rcases except_bind_error _ _ _ herr with h8 | ⟨preds, _, herr⟩
    · rcases mapExcept_error_exists _ _ _ h8 with ⟨c, _, hc⟩
      exact Or.inr (Or.inr (Or.inr (Or.inr (Or.inr (Or.inr (Or.inl ⟨_, hc⟩))))))
    rcases except_bind_error _ _ _ herr with h9 | ⟨rm, _, herr⟩
    · exact Or.inr (Or.inr (Or.inr (Or.inr (Or.inr (Or.inr (Or.inl ⟨_, h9⟩))))))
    rcases except_bind_error _ _ _ herr with h10 | ⟨ra, _, herr⟩
    · exact Or.inr (Or.inr (Or.inr (Or.inr (Or.inr (Or.inr (Or.inl ⟨_, h10⟩))))))
    · exact absurd herr (by simp)

/-- Witness for notebook_failures_propagate at the environment whose fit
call fails with the error boom. -/
theorem notebook_failures_propagate_witness :
    envBad.download_result = Except.error "boom" ∨
      envBad.copy_result = Except.error "boom" ∨
      envBad.upload_train_result = Except.error "boom" ∨
      envBad.upload_test_result = Except.error "boom" ∨
      envBad.fit_result = Except.error "boom" ∨
      envBad.deploy_result = Except.error "boom" ∨
      (∃ p, envBad.predict p = Except.error "boom") ∨
      "boom" = "IndexError" :=
  (notebook_failures_propagate envBad).2 "boom" rfl

/-- C4 counterexample: in the concrete successful run the notebook plots
before the file copy and before the prediction requests, so the claimed
fixed step order, with plotting as the final step after the prediction
loop, does not hold of the notebook. -/
theorem notebook_step_order_cex :
    allBefore isCopy isPlot traceC = false ∧
      allBefore isPredict isPlot traceC = false := by
  decide

/-- C4 amended: a successful run that performed the download executes the
fixed trace fullTrace: download, transform composition, dataset split, a
visualisation plot, directory creation, file copy, the two uploads, fit,
deploy, the prediction loop, a plot, then the range and all-slices
requests; in particular the download precedes the transform composition,
the transform composition precedes the file copy, the copy precedes the
training-data upload, the uploads precede fit, fit precedes deploy, and
deploy precedes every predict call. -/
theorem notebook_step_order (env : Env) (out : List EndpointResponse × List Op)
    (hds : env.spleenDirExists = false) (hok : runNotebook env = Except.ok out) :
    out.2 = fullTrace ∧
      allBefore isDownload isTransform fullTrace = true ∧
      allBefore isTransform isCopy fullTrace = true ∧
      allBefore isCopy isUploadTrain fullTrace = true ∧
      allBefore isUpload isFit fullTrace = true ∧
      allBefore isFit isDeploy fullTrace = true ∧
      allBefore isDeploy isPredict fullTrace = true := by
  refine ⟨?_, by decide, by decide, by decide, by decide, by decide, by decide⟩
  unfold runNotebook at hok
  rcases except_bind_ok _ _ _ hok with ⟨r1, hr1, hok⟩
  rcases except_bind_ok _ _ _ hok with ⟨d0, _, hok⟩
  rcases except_bind_ok _ _ _ hok with ⟨uc, _, hok⟩
  rcases except_bind_ok _ _ _ hok with ⟨s1, _, hok⟩
  rcases except_bind_ok _ _ _ hok with ⟨s2, _, hok⟩
  rcases except_bind_ok _ _ _ hok with ⟨uf, _, hok⟩
  rcases except_bind_ok _ _ _ hok with ⟨ud, _, hok⟩
  rcases except_bind_ok _ _ _ hok with ⟨preds, _, hok⟩
  rcases except_bind_ok _ _ _ hok with ⟨rm, _, hok⟩
  rcases except_bind_ok _ _ _ hok with ⟨ra, _, hok⟩
  rw [hds] at hr1
  have ht := downloadStep_trace _ _ _ hr1
  injection hok with h2
  rw [← h2]
  simp [fullTrace, ht]

/-- Witness for notebook_step_order at the concrete environment envC. -/
theorem notebook_step_order_witness :
    allBefore isDeploy isPredict fullTrace = true :=
  (notebook_step_order envC
      (List.replicate 12 (EndpointResponse.s3Location "s3://out"), fullTrace) rfl
      rfl).2.2.2.2.2.2

end NB
